import Mathlib

/-!
Shallow embedding of `src/scripts/auto-release.js` (the release-orchestration
workflow of the scribe repository).  External command invocations and API
responses are modelled as oracle inputs: each observation record holds the
outcome of one external call exactly as the script would see it (a `null`
result from a failed command, unparseable text, or parsed structured data).
All control flow, string matching and classification logic is translated
directly from the source.
-/

/-- Result of one external fetch as the script observes it:
`fail` models a falsy command result (`null` from `allowFailure`, or an empty
trimmed output), `parseError` models text that `JSON.parse` rejects, and `ok`
carries the parsed value. -/
inductive FetchResult (α : Type) where
  | fail : FetchResult α
  | parseError : FetchResult α
  | ok : α → FetchResult α
deriving DecidableEq, Repr

/-- Whether `cs` starts with the pattern `p` (character-list level). -/
def charsStartWith : List Char → List Char → Bool
  | [], _ => true
  | _ :: _, [] => false
  | p :: ps, c :: cs => p == c && charsStartWith ps cs

/-- JS `hay.includes(sub)` at the character-list level. -/
def charsIncludes (sub : List Char) : List Char → Bool
  | [] => sub.isEmpty
  | c :: cs => charsStartWith sub (c :: cs) || charsIncludes sub cs

/-- JS `hay.includes(sub)` on strings. -/
def strIncludes (hay sub : String) : Bool :=
  charsIncludes sub.data hay.data

/-- JS truthiness of an `execCommand` result: `null` and the empty (trimmed)
string are falsy. -/
def truthyStr : Option String → Bool
  | none => false
  | some s => s != ""

/-- Configuration constant `CHECK_INTERVAL` (milliseconds) from the script. -/
def CHECK_INTERVAL : Nat := 30000

/-- Configuration constant `MAX_WAIT_TIME` (milliseconds) from the script. -/
def MAX_WAIT_TIME : Nat := 1800000

/-- Configuration constant `BASE_BRANCH` from the script. -/
def BASE_BRANCH : String := "main"

/-- Fields of `gh pr view --json state,mergeable` consumed by `waitForChecks`
(the fetched `statusCheckRollup` field is never read by the script). -/
structure PRCycleData where
  state : String
  mergeable : String
deriving DecidableEq, Repr

/-- One entry of `gh pr checks --json bucket,state,name`. -/
structure CheckItem where
  bucket : String
  state : String
  name : String
deriving DecidableEq, Repr

/-- The external observations of one polling cycle of `waitForChecks`:
the PR view fetch, the `gh pr checks` fetch, and the alternative
status-checks API fetch (consulted only when the first one fails). -/
structure CycleObs where
  prStatus : FetchResult PRCycleData
  checksA : FetchResult (List CheckItem)
  checksB : FetchResult (List CheckItem)
deriving DecidableEq, Repr

/-- The check list the cycle ends up parsing: the first API's output, or the
alternative API's output when the first command failed (`if (!checksResult)`). -/
def effectiveChecks (o : CycleObs) : FetchResult (List CheckItem) :=
  match o.checksA with
  | .fail => o.checksB
  | r => r

/-- Outcome of one iteration of the `while` loop in `waitForChecks`:
either a `return` with a boolean, or a `continue` into the next poll. -/
inductive CycleOutcome where
  | ret : Bool → CycleOutcome
  | cont : CycleOutcome
deriving DecidableEq, Repr

/-- One iteration of the polling loop body of `waitForChecks`
(`src/scripts/auto-release.js` lines 180-311), translated branch by branch. -/
def waitCycle (o : CycleObs) : CycleOutcome :=
  match o.prStatus with
  | .fail => .cont
  | .parseError => .cont
  | .ok prData =>
    if prData.state == "MERGED" then .ret true
    else if prData.state == "CLOSED" then .ret false
    else
      match effectiveChecks o with
      | .fail =>
        if prData.mergeable == "MERGEABLE" then .ret true
        else if prData.mergeable == "CONFLICTING" then .ret false
        else .cont
      | .parseError => .cont
      | .ok checks =>
        if checks.length == 0 then
          if prData.mergeable == "MERGEABLE" then .ret true else .cont
        else
          let pendingChecks := checks.filter (fun c => c.bucket == "pending")
          let failedChecks := checks.filter (fun c => c.bucket == "fail" || c.bucket == "cancel")
          let succeededChecks := checks.filter (fun c => c.bucket == "pass")
          let skippedChecks := checks.filter (fun c => c.bucket == "skipping")
          if failedChecks.length > 0 then .ret false
          else if pendingChecks.length == 0 then
            if succeededChecks.length > 0 || skippedChecks.length > 0 then .ret true
            else if prData.mergeable == "MERGEABLE" then .ret true
            else .cont
          else .cont

/-- The `while (Date.now() - startTime < MAX_WAIT_TIME)` loop of
`waitForChecks`, with the wait budget and poll interval as parameters.
`obs n` is the observation of the n-th cycle; every `continue` path of the
body sleeps `interval` milliseconds before the guard is re-checked, so
`elapsed` advances by `interval` per continued cycle.  Returns the boolean
result together with the elapsed time at return. -/
def waitLoop (obs : Nat → CycleObs) (maxWait interval : Nat) (hp : 0 < interval) :
    Nat → Nat → Bool × Nat
  | n, elapsed =>
    if _h : elapsed < maxWait then
      match waitCycle (obs n) with
      | .ret b => (b, elapsed)
      | .cont => waitLoop obs maxWait interval hp (n + 1) (elapsed + interval)
    else (false, elapsed)
termination_by _n elapsed => maxWait - elapsed
decreasing_by omega

/-- The loop of `waitForChecks` started at cycle `n` with `elapsed`
milliseconds consumed, using the script's configured constants. -/
def waitFrom (obs : Nat → CycleObs) (n elapsed : Nat) : Bool × Nat :=
  waitLoop obs MAX_WAIT_TIME CHECK_INTERVAL (by decide) n elapsed

/-- The whole `waitForChecks` call: the loop from cycle 0 at elapsed time 0. -/
def waitForChecks (obs : Nat → CycleObs) : Bool × Nat :=
  waitFrom obs 0 0

theorem waitLoop_ret {obs maxWait interval hp n elapsed b}
    (he : elapsed < maxWait) (hc : waitCycle (obs n) = .ret b) :
    waitLoop obs maxWait interval hp n elapsed = (b, elapsed) := by
  rw [waitLoop]
  simp [he, hc]

theorem waitLoop_cont {obs maxWait interval hp n elapsed}
    (he : elapsed < maxWait) (hc : waitCycle (obs n) = .cont) :
    waitLoop obs maxWait interval hp n elapsed
      = waitLoop obs maxWait interval hp (n + 1) (elapsed + interval) := by
  rw [waitLoop]
  simp [he, hc]

theorem waitLoop_stop {obs maxWait interval hp n elapsed}
    (he : ¬ elapsed < maxWait) :
    waitLoop obs maxWait interval hp n elapsed = (false, elapsed) := by
  rw [waitLoop]
  simp [he]

theorem waitFrom_ret {obs n elapsed b}
    (he : elapsed < MAX_WAIT_TIME) (hc : waitCycle (obs n) = .ret b) :
    waitFrom obs n elapsed = (b, elapsed) :=
  waitLoop_ret he hc

/-- One entry of `gh pr list --json number,url,title`. -/
structure PRInfo where
  number : Nat
  url : String
  title : String
deriving DecidableEq, Repr

/-- One entry of `gh pr list --json number` (the fallback lookup inside
`extractPRNumber` requests only the number field). -/
structure PRNumOnly where
  number : Nat
deriving DecidableEq, Repr

/-- A PR identifier as the dynamically typed script holds it: a JS number
(from a parsed listing) or a digit string (from a regex capture or
`number.toString()`). -/
inductive PRId where
  | ofNat : Nat → PRId
  | ofStr : String → PRId
deriving DecidableEq, Repr

/-- The function `findExistingPR`: returns the first listed PR's number, or
`null` when the listing command failed, did not parse, or was empty. -/
def findExistingPR (listResult : FetchResult (List PRInfo)) : Option Nat :=
  match listResult with
  | .ok (pr :: _) => some pr.number
  | _ => none

/-- First match of the JS regex `/#(\d+)/`: the maximal digit run following
the first `#` that is followed by at least one digit. -/
def matchHashNum : List Char → Option String
  | [] => none
  | c :: rest =>
    let ds := rest.takeWhile Char.isDigit
    if c == '#' && !ds.isEmpty then some (String.mk ds) else matchHashNum rest

/-- First match of the JS regex `/pull\/(\d+)/`. -/
def matchPullNum : List Char → Option String
  | [] => none
  | c :: rest =>
    let ds := ((c :: rest).drop 5).takeWhile Char.isDigit
    if charsStartWith ['p', 'u', 'l', 'l', '/'] (c :: rest) && !ds.isEmpty then
      some (String.mk ds)
    else matchPullNum rest

/-- Match of the JS regex `/\/(\d+)$/`: the maximal trailing digit run when
it is non-empty and immediately preceded by a slash. -/
def matchTrailingNum (s : String) : Option String :=
  let rev := s.data.reverse
  let ds := rev.takeWhile Char.isDigit
  if !ds.isEmpty && (rev.drop ds.length).head? == some '/' then
    some (String.mk ds.reverse)
  else none

/-- The function `extractPRNumber`: three regex extractions over the creation
output in order, then a PR-list fallback taking `prs[0].number.toString()`. -/
def extractPRNumber (prResult : String) (prList : FetchResult (List PRNumOnly)) :
    Option PRId :=
  match matchHashNum prResult.data with
  | some s => some (.ofStr s)
  | none =>
  match matchPullNum prResult.data with
  | some s => some (.ofStr s)
  | none =>
  match matchTrailingNum prResult with
  | some s => some (.ofStr s)
  | none =>
  match prList with
  | .ok (pr :: _) => some (.ofStr (toString pr.number))
  | _ => none

/-- External observations of one `getOrCreatePR` call: the initial existence
listing, the `gh pr create` output (`none` when the command failed), the
re-listing used when creation failed, the listing used inside
`extractPRNumber`, and the re-listing used when number extraction failed. -/
structure ResolveObs where
  list1 : FetchResult (List PRInfo)
  createResult : Option String
  list2 : FetchResult (List PRInfo)
  extractList : FetchResult (List PRNumOnly)
  list3 : FetchResult (List PRInfo)
deriving DecidableEq, Repr

/-- Result of `getOrCreatePR`: a returned PR id, or `process.exit(1)`. -/
inductive ResolveResult where
  | ret : PRId → ResolveResult
  | exitOne : ResolveResult
deriving DecidableEq, Repr

/-- Result of `getOrCreatePR` together with whether a `gh pr create` request
was issued on the way. -/
structure ResolveOutcome where
  result : ResolveResult
  createCalled : Bool
deriving DecidableEq, Repr

/-- JS truthiness of a looked-up PR number (`null` and the number `0` are
falsy), as tested by `if (prNumber)` / `if (!prNumber)` at lines 439, 468
and 487. -/
def truthyNum : Option Nat → Bool
  | none => false
  | some n => n != 0

/-- The creation path of `getOrCreatePR` (lines 444-499), entered when the
initial lookup did not yield a truthy PR number.  A falsy creation output
(`null` or empty) takes the creation-failed fallback re-query (line 465),
whose result is again guarded by `if (!prNumber)` (line 468); a truthy
creation output goes through `extractPRNumber` and, on extraction failure,
the re-query at line 485 guarded by `if (!prNumber)` (line 487). -/
def createPRPath (o : ResolveObs) : ResolveOutcome :=
  if truthyStr o.createResult then
    match o.createResult with
    | some prResult =>
      match extractPRNumber prResult o.extractList with
      | some id => ⟨.ret id, true⟩
      | none =>
        match findExistingPR o.list3 with
        | some n => if n != 0 then ⟨.ret (.ofNat n), true⟩ else ⟨.exitOne, true⟩
        | none => ⟨.exitOne, true⟩
    | none => ⟨.exitOne, true⟩
  else
    match findExistingPR o.list2 with
    | some n => if n != 0 then ⟨.ret (.ofNat n), true⟩ else ⟨.exitOne, true⟩
    | none => ⟨.exitOne, true⟩

/-- The function `getOrCreatePR`, with each external call's outcome drawn
from `o`.  The number returned by the initial lookup is used only when it
is JS-truthy (`if (prNumber)`, line 439): a `null` or `0` result falls
through to the creation path. -/
def getOrCreatePR (o : ResolveObs) : ResolveOutcome :=
  match findExistingPR o.list1 with
  | some n => if n != 0 then ⟨.ret (.ofNat n), false⟩ else createPRPath o
  | none => createPRPath o

/-- The `--json state` payload of the post-merge re-check. -/
structure MergeStateData where
  state : String
deriving DecidableEq, Repr

/-- External observations of the merge step of `main`: whether the
`gh pr merge --squash --delete-branch` command reported success, and the
re-fetched PR state consulted when it reported failure. -/
structure MergeObs where
  mergeCmdOk : Bool
  recheck : FetchResult MergeStateData
deriving DecidableEq, Repr

/-- The merge step of `main` (lines 654-685): the value of `mergeSuccessful`
after the try/catch block.  `main` exits with code 1 exactly when this is
false. -/
def mergeStep (o : MergeObs) : Bool :=
  if o.mergeCmdOk then true
  else
    match o.recheck with
    | .ok statusData => statusData.state == "MERGED"
    | _ => false

/-- JS `s.startsWith(pre)` on strings. -/
def jsStartsWith (s pre : String) : Bool :=
  charsStartWith pre.data s.data

/-- JS `s.trim()`: the string with leading and trailing whitespace removed. -/
def jsTrim (s : String) : String :=
  String.mk (((s.data.dropWhile Char.isWhitespace).reverse.dropWhile
    Char.isWhitespace).reverse)

/-- JS `s.split(sep)` for a one-character separator: accumulator-based split
of the character list. -/
def splitOnCharAux (sep : Char) : List Char → List Char → List String
  | [], acc => [String.mk acc.reverse]
  | c :: cs, acc =>
    if c == sep then String.mk acc.reverse :: splitOnCharAux sep cs []
    else splitOnCharAux sep cs (c :: acc)

/-- JS `changelog.split('\n')`. -/
def jsSplitLines (s : String) : List String :=
  splitOnCharAux '\n' s.data []

/-- JS `array.join(sep)`. -/
def jsJoin (sep : String) : List String → String
  | [] => ""
  | [x] => x
  | x :: xs => x ++ sep ++ jsJoin sep xs

/-- The heading-match condition of `generateReleaseNotes` line 145:
`line.includes("[Unreleased]") || line.includes("[" + version + "]")`. -/
def markLine (version line : String) : Bool :=
  strIncludes line "[Unreleased]" || strIncludes line ("[" ++ version ++ "]")

/-- The section-break condition of `generateReleaseNotes` line 150:
`line.startsWith("## [") && !line.includes(version)`. -/
def stopLine (version line : String) : Bool :=
  jsStartsWith line "## [" && !(strIncludes line version)

/-- The accumulation loop of `generateReleaseNotes` (lines 144-157) over the
changelog lines, carrying the `inCurrentVersion` flag. -/
def collectNotes (version : String) : List String → Bool → List String
  | [], _ => []
  | line :: rest, inCurrentVersion =>
    if markLine version line then
      collectNotes version rest true
    else if inCurrentVersion && stopLine version line then
      []
    else if inCurrentVersion && jsTrim line != "" then
      line :: collectNotes version rest inCurrentVersion
    else
      collectNotes version rest inCurrentVersion

/-- The function `generateReleaseNotes`, with the manifest version and the
changelog file contents (`none` when `CHANGELOG.md` does not exist) as
oracle inputs. -/
def generateReleaseNotes (version : String) (changelog : Option String) : String :=
  match changelog with
  | none => "Release v" ++ version
  | some changelogText =>
    let lines := jsSplitLines changelogText
    let releaseNotes := collectNotes version lines false
    if releaseNotes.isEmpty then
      "Release v" ++ version ++ "\n\nSee CHANGELOG.md for details."
    else
      "Release v" ++ version ++ "\n\n" ++ jsJoin "\n" releaseNotes

/-- External observations of one `createRelease` call: the checkout and pull
commands (which throw on failure), the changelog contents, the
`git tag -l` output, the temp-directory/file write, the file-based
`gh release create`, the temp-file unlink, and the escaped-string fallback
`gh release create`. -/
structure RelObs where
  checkoutOk : Bool
  pullOk : Bool
  changelog : Option String
  tagList : Option String
  tmpWriteOk : Bool
  fileCreateOk : Bool
  unlinkOk : Bool
  fallbackCreateOk : Bool
deriving DecidableEq, Repr

/-- Result of `createRelease`: whether it returned normally (`ok = false`
means an exception propagated, which `main`'s top-level catch turns into
exit code 1), how many `gh release create` requests were issued, and
whether removal of the temporary notes file was attempted. -/
structure RelResult where
  ok : Bool
  releaseCreateCalls : Nat
  unlinkAttempted : Bool
deriving DecidableEq, Repr

/-- The catch-block of `createRelease` (lines 358-365): the escaped-string
fallback release creation.  `callsSoFar` counts `gh release create` requests
already issued inside the try-block, `unlinkAtt` records whether the unlink
was attempted there. -/
def relFallback (o : RelObs) (callsSoFar : Nat) (unlinkAtt : Bool) : RelResult :=
  if o.fallbackCreateOk then ⟨true, callsSoFar + 1, unlinkAtt⟩
  else ⟨false, callsSoFar + 1, unlinkAtt⟩

/-- The tag-absent branch of `createRelease` (lines 337-365): write the temp
notes file, create the release from it, unlink the temp file; any exception
inside the try-block falls into the escaped-string fallback. -/
def createReleasePath (o : RelObs) : RelResult :=
  if o.tmpWriteOk then
    if o.fileCreateOk then
      if o.unlinkOk then ⟨true, 1, true⟩
      else relFallback o 1 true
    else relFallback o 1 false
  else relFallback o 0 false

/-- The function `createRelease` (lines 322-370): checkout and pull the base
branch, generate the notes, skip creation when `git tag -l` printed a
non-empty (truthy) result, otherwise run the creation path. -/
def createRelease (version : String) (o : RelObs) : RelResult :=
  if !o.checkoutOk then ⟨false, 0, false⟩
  else if !o.pullOk then ⟨false, 0, false⟩
  else
    let _releaseNotes := generateReleaseNotes version o.changelog
    if truthyStr o.tagList then ⟨true, 0, false⟩
    else createReleasePath o

/-- External observations of `attemptConflictResolution`: the fetch (throws
on failure, caught by the function's try), the rebase and merge attempts
(run with `allowFailure`, so failure yields `null`), and the
`--force-with-lease` push (throws on failure, caught by the try). -/
structure ConflictObs where
  fetchOk : Bool
  rebaseOk : Bool
  mergeOk : Bool
  forcePushOk : Bool
deriving DecidableEq, Repr

/-- The function `attemptConflictResolution` (lines 502-536). -/
def attemptConflictResolution (o : ConflictObs) : Bool :=
  if !o.fetchOk then false
  else if o.rebaseOk then o.forcePushOk
  else if o.mergeOk then o.forcePushOk
  else false

/-- The `--json mergeable,mergeStateStatus` payload of the pre-merge PR
views in `main`. -/
structure MergeViewData where
  mergeable : String
  mergeStateStatus : String
deriving DecidableEq, Repr

/-- The conflict pre-check block of `main` (lines 594-650): returns true
when control proceeds to the merge attempt and false when the block exits
the process with code 1.  A failed or unparseable pre-merge view proceeds;
a CONFLICTING or DIRTY view triggers `attemptConflictResolution`, whose
failure exits; after a resolution attempt the re-fetched view must either
be unavailable/unparseable (proceed) or MERGEABLE (proceed), anything else
exits. -/
def conflictGate (pre : FetchResult MergeViewData) (c : ConflictObs)
    (post : FetchResult MergeViewData) : Bool :=
  match pre with
  | .fail => true
  | .parseError => true
  | .ok prData =>
    if prData.mergeable == "CONFLICTING" || prData.mergeStateStatus == "DIRTY" then
      if attemptConflictResolution c then
        match post with
        | .fail => true
        | .parseError => true
        | .ok updatedData => updatedData.mergeable == "MERGEABLE"
      else false
    else true

/-- The `execCommandSafely` wrapper: a non-null result that contains one of
the help keywords is treated as a failure. -/
def looksLikeHelp (s : String) : Bool :=
  strIncludes s "Usage:" || strIncludes s "USAGE:" || strIncludes s "Commands:" ||
    strIncludes s "Options:" || strIncludes s "FLAGS:" || strIncludes s "ARGUMENTS:"

/-- The function `execCommandSafely` applied to a raw command result that was
run with `allowFailure` (help-looking output becomes `null`). -/
def execCommandSafely (result : Option String) : Option String :=
  match result with
  | none => none
  | some s => if looksLikeHelp s then none else some s

/-- External observations of one run of `main`.  File reads of
`package.json` and the latest commit message are modelled as succeeding
(their values never influence the control flow modelled here beyond being
interpolated into command strings, which live inside the other oracle
fields). -/
structure MainObs where
  ghVersionRaw : Option String
  authStatus : Option String
  gitStatusPorcelain : Option String
  currentBranch : Option String
  version : String
  pushOk : Bool
  resolveObs : ResolveObs
  cycles : Nat → CycleObs
  preMergeView : FetchResult MergeViewData
  conflictObs : ConflictObs
  postConflictView : FetchResult MergeViewData
  mergeObs : MergeObs
  relObs : RelObs

/-- Observable outcome of one run of `main`: the process exit code and
which remote-mutating or query side effects were reached. -/
structure MainResult where
  exitCode : Nat
  pushAttempted : Bool
  prListCalled : Bool
  prCreateCalled : Bool
  releaseCreateCalls : Nat
deriving DecidableEq, Repr

/-- The function `main` (lines 538-702): prerequisite checks, branch push,
PR resolution, check polling, conflict pre-check, merge, release.  A
command whose failure is not handled locally propagates to the top-level
catch, modelled as exit code 1.  (Named `mainRun` because `main` is
reserved by Lean for program entry points.) -/
def mainRun (o : MainObs) : MainResult :=
  if !truthyStr (execCommandSafely o.ghVersionRaw) then ⟨1, false, false, false, 0⟩
  else if !truthyStr o.authStatus then ⟨1, false, false, false, 0⟩
  else
    match o.gitStatusPorcelain with
    | none => ⟨1, false, false, false, 0⟩
    | some status =>
      if status.length > 0 then ⟨1, false, false, false, 0⟩
      else
        match o.currentBranch with
        | none => ⟨1, false, false, false, 0⟩
        | some currentBranch =>
          if currentBranch == BASE_BRANCH then ⟨1, false, false, false, 0⟩
          else if !o.pushOk then ⟨1, true, false, false, 0⟩
          else
            let r := getOrCreatePR o.resolveObs
            match r.result with
            | .exitOne => ⟨1, true, true, r.createCalled, 0⟩
            | .ret _prNumber =>
              if !(waitForChecks o.cycles).1 then ⟨1, true, true, r.createCalled, 0⟩
              else if !conflictGate o.preMergeView o.conflictObs o.postConflictView then
                ⟨1, true, true, r.createCalled, 0⟩
              else if !mergeStep o.mergeObs then ⟨1, true, true, r.createCalled, 0⟩
              else
                let rr := createRelease o.version o.relObs
                if rr.ok then ⟨0, true, true, r.createCalled, rr.releaseCreateCalls⟩
                else ⟨1, true, true, r.createCalled, rr.releaseCreateCalls⟩

theorem filter_ne_nil_of_mem {p : CheckItem → Bool} {l : List CheckItem} {c : CheckItem}
    (hc : c ∈ l) (hp : p c = true) : l.filter p ≠ [] := by
  intro hnil
  exact absurd hp (by simpa using List.filter_eq_nil_iff.mp hnil c hc)

/-- C1: over a non-empty successfully fetched check set in a cycle whose PR
is neither MERGED nor CLOSED, the aggregate outcome of `waitForChecks` is a
pure function of the buckets: any `fail` or `cancel` bucket makes
`waitForChecks` return false regardless of the other buckets; with no
`fail`/`cancel` bucket and some `pending` bucket the loop continues polling;
with no `fail`, `cancel` or `pending` bucket `waitForChecks` returns true. -/
theorem waitForChecks_aggregate (obs : Nat → CycleObs) (pr : PRCycleData)
    (checks : List CheckItem)
    (hpr : (obs 0).prStatus = .ok pr)
    (hnm : pr.state ≠ "MERGED") (hnc : pr.state ≠ "CLOSED")
    (hfx : effectiveChecks (obs 0) = .ok checks)
    (hne : checks ≠ [])
    (hval : ∀ c ∈ checks, c.bucket = "pending" ∨ c.bucket = "pass" ∨ c.bucket = "fail" ∨
      c.bucket = "cancel" ∨ c.bucket = "skipping") :
    ((∃ c ∈ checks, c.bucket = "fail" ∨ c.bucket = "cancel") →
      waitForChecks obs = (false, 0)) ∧
    ((∀ c ∈ checks, c.bucket ≠ "fail" ∧ c.bucket ≠ "cancel") →
      (∃ c ∈ checks, c.bucket = "pending") → waitCycle (obs 0) = .cont) ∧
    ((∀ c ∈ checks, c.bucket ≠ "fail" ∧ c.bucket ≠ "cancel" ∧ c.bucket ≠ "pending") →
      waitForChecks obs = (true, 0)) := by
  refine ⟨?_, ?_, ?_⟩
  · rintro ⟨c, hc, hb⟩
    have hfN : checks.filter (fun c => c.bucket == "fail" || c.bucket == "cancel") ≠ [] :=
      filter_ne_nil_of_mem hc (by rcases hb with h | h <;> simp [h])
    have hl : 0 < (checks.filter (fun c => c.bucket == "fail" || c.bucket == "cancel")).length :=
      List.length_pos.mpr hfN
    have hcyc : waitCycle (obs 0) = .ret false := by
      unfold waitCycle
      rw [hpr, hfx]
      simp [hnm, hnc, hne, hl, List.length_eq_zero]
    exact waitFrom_ret (by decide) hcyc
  · intro hnofail ⟨c, hc, hp⟩
    have hfE : checks.filter (fun c => c.bucket == "fail" || c.bucket == "cancel") = [] := by
      apply List.filter_eq_nil_iff.mpr
      intro a ha
      have := hnofail a ha
      simp [this.1, this.2]
    have hpN : checks.filter (fun c => c.bucket == "pending") ≠ [] :=
      filter_ne_nil_of_mem hc (by simp [hp])
    have hpl : (checks.filter (fun c => c.bucket == "pending")).length ≠ 0 :=
      fun h => hpN (List.length_eq_zero.mp h)
    unfold waitCycle
    rw [hpr, hfx]
    simp [hnm, hnc, hne, hfE, hpl, List.length_eq_zero]
  · intro hnone
    have hfE : checks.filter (fun c => c.bucket == "fail" || c.bucket == "cancel") = [] := by
      apply List.filter_eq_nil_iff.mpr
      intro a ha
      have := hnone a ha
      simp [this.1, this.2.1]
    have hpE : checks.filter (fun c => c.bucket == "pending") = [] := by
      apply List.filter_eq_nil_iff.mpr
      intro a ha
      simp [(hnone a ha).2.2]
    obtain ⟨c, hc⟩ : ∃ c, c ∈ checks := by
      cases checks with
      | nil => exact absurd rfl hne
      | cons x xs => exact ⟨x, List.mem_cons_self x xs⟩
    have hps : c.bucket = "pass" ∨ c.bucket = "skipping" := by
      rcases hval c hc with h | h | h | h | h
      · exact absurd h (hnone c hc).2.2
      · exact Or.inl h
      · exact absurd h (hnone c hc).1
      · exact absurd h (hnone c hc).2.1
      · exact Or.inr h
    have hsucc : 0 < (checks.filter (fun c => c.bucket == "pass")).length ∨
        0 < (checks.filter (fun c => c.bucket == "skipping")).length := by
      rcases hps with h | h
      · exact Or.inl (List.length_pos.mpr (filter_ne_nil_of_mem hc (by simp [h])))
      · exact Or.inr (List.length_pos.mpr (filter_ne_nil_of_mem hc (by simp [h])))
    have hcyc : waitCycle (obs 0) = .ret true := by
      unfold waitCycle
      rw [hpr, hfx]
      rcases hsucc with h | h <;>
        simp [hnm, hnc, hne, hfE, hpE, h, List.length_eq_zero]
    exact waitFrom_ret (by decide) hcyc

/-- C1 witness: a concrete cycle with one failed and one passed check makes
`waitForChecks` return false immediately. -/
theorem waitForChecks_aggregate_witness :
    waitForChecks (fun _ => ⟨.ok ⟨"OPEN", "UNKNOWN"⟩,
        .ok [⟨"fail", "completed", "test"⟩, ⟨"pass", "completed", "lint"⟩], .fail⟩)
      = (false, 0) :=
  (waitForChecks_aggregate
    (fun _ => ⟨.ok ⟨"OPEN", "UNKNOWN"⟩,
      .ok [⟨"fail", "completed", "test"⟩, ⟨"pass", "completed", "lint"⟩], .fail⟩)
    ⟨"OPEN", "UNKNOWN"⟩
    [⟨"fail", "completed", "test"⟩, ⟨"pass", "completed", "lint"⟩]
    rfl (by decide) (by decide) rfl (by decide) (by decide)).1
    ⟨⟨"fail", "completed", "test"⟩, by decide, by decide⟩

/-- C3: in a cycle whose PR is open, an empty successfully fetched check
list yields immediate success for mergeable=MERGEABLE and a continued poll
for mergeable=CONFLICTING; when both check APIs fail, MERGEABLE yields
success, CONFLICTING yields immediate failure, and any other mergeable
value continues polling. -/
theorem waitForChecks_zero_and_fallback (obs : Nat → CycleObs) (pr : PRCycleData)
    (hpr : (obs 0).prStatus = .ok pr)
    (hnm : pr.state ≠ "MERGED") (hnc : pr.state ≠ "CLOSED") :
    (effectiveChecks (obs 0) = .ok [] →
      (pr.mergeable = "MERGEABLE" → waitForChecks obs = (true, 0)) ∧
      (pr.mergeable = "CONFLICTING" → waitCycle (obs 0) = .cont)) ∧
    (effectiveChecks (obs 0) = .fail →
      (pr.mergeable = "MERGEABLE" → waitForChecks obs = (true, 0)) ∧
      (pr.mergeable = "CONFLICTING" → waitForChecks obs = (false, 0)) ∧
      (pr.mergeable ≠ "MERGEABLE" → pr.mergeable ≠ "CONFLICTING" →
        waitCycle (obs 0) = .cont)) := by
  constructor
  · intro hfx
    constructor
    · intro hm
      refine waitFrom_ret (by decide) ?_
      unfold waitCycle
      rw [hpr, hfx]
      simp [hnm, hnc, hm]
    · intro hm
      unfold waitCycle
      rw [hpr, hfx]
      simp [hnm, hnc, hm]
  · intro hfx
    refine ⟨?_, ?_, ?_⟩
    · intro hm
      refine waitFrom_ret (by decide) ?_
      unfold waitCycle
      rw [hpr, hfx]
      simp [hnm, hnc, hm]
    · intro hm
      refine waitFrom_ret (by decide) ?_
      unfold waitCycle
      rw [hpr, hfx]
      simp [hnm, hnc, hm]
    · intro hm hc
      unfold waitCycle
      rw [hpr, hfx]
      simp [hnm, hnc, hm, hc]

/-- C3 witness: with an empty check list and a MERGEABLE PR the call
succeeds immediately, instantiated at a concrete observation. -/
theorem waitForChecks_zero_and_fallback_witness :
    waitForChecks (fun _ => ⟨.ok ⟨"OPEN", "MERGEABLE"⟩, .ok [], .fail⟩) = (true, 0) :=
  ((waitForChecks_zero_and_fallback
      (fun _ => ⟨.ok ⟨"OPEN", "MERGEABLE"⟩, .ok [], .fail⟩)
      ⟨"OPEN", "MERGEABLE"⟩ rfl (by decide) (by decide)).1 rfl).1 rfl

theorem waitLoop_all_cont (obs : Nat → CycleObs) (maxWait interval : Nat) (hp : 0 < interval)
    (hcont : ∀ n, waitCycle (obs n) = .cont) :
    ∀ d n elapsed, maxWait - elapsed ≤ d → elapsed < maxWait + interval →
      (waitLoop obs maxWait interval hp n elapsed).1 = false ∧
      (waitLoop obs maxWait interval hp n elapsed).2 < maxWait + interval := by
  intro d
  induction d with
  | zero =>
    intro n elapsed hd hlt
    have h : ¬ elapsed < maxWait := by omega
    rw [waitLoop_stop h]
    exact ⟨rfl, hlt⟩
  | succ d ih =>
    intro n elapsed hd hlt
    by_cases h : elapsed < maxWait
    · rw [waitLoop_cont h (hcont n)]
      exact ih (n + 1) (elapsed + interval) (by omega) (by omega)
    · rw [waitLoop_stop h]
      exact ⟨rfl, hlt⟩

/-- C4: if no polling cycle ever observes a terminal condition (every cycle
body continues), the loop of `waitForChecks` terminates and returns false
with elapsed time at most `maxWait + interval`; in particular the actual
`waitForChecks` call returns false within `MAX_WAIT_TIME + CHECK_INTERVAL`
milliseconds. -/
theorem waitForChecks_timeout (obs : Nat → CycleObs) (maxWait interval : Nat)
    (hp : 0 < interval) (hcont : ∀ n, waitCycle (obs n) = .cont) :
    ((waitLoop obs maxWait interval hp 0 0).1 = false ∧
      (waitLoop obs maxWait interval hp 0 0).2 ≤ maxWait + interval) ∧
    ((waitForChecks obs).1 = false ∧
      (waitForChecks obs).2 ≤ MAX_WAIT_TIME + CHECK_INTERVAL) := by
  constructor
  · have h := waitLoop_all_cont obs maxWait interval hp hcont maxWait 0 0 (by omega)
      (by omega)
    exact ⟨h.1, by omega⟩
  · have hi : 0 < CHECK_INTERVAL := by decide
    have h := waitLoop_all_cont obs MAX_WAIT_TIME CHECK_INTERVAL hi hcont MAX_WAIT_TIME 0 0
      (by omega) (by omega)
    have he : waitForChecks obs = waitLoop obs MAX_WAIT_TIME CHECK_INTERVAL hi 0 0 := rfl
    rw [he]
    exact ⟨h.1, by omega⟩

/-- C4 witness: with every cycle failing to fetch the PR status (hence
continuing), a loop with budget 2 and interval 1 returns false within 3,
and the configured `waitForChecks` returns false within its budget plus one
interval. -/
theorem waitForChecks_timeout_witness :
    ((waitLoop (fun _ => ⟨.fail, .fail, .fail⟩) 2 1 (by decide) 0 0).1 = false ∧
      (waitLoop (fun _ => ⟨.fail, .fail, .fail⟩) 2 1 (by decide) 0 0).2 ≤ 2 + 1) ∧
    ((waitForChecks (fun _ => ⟨.fail, .fail, .fail⟩)).1 = false ∧
      (waitForChecks (fun _ => ⟨.fail, .fail, .fail⟩)).2
        ≤ MAX_WAIT_TIME + CHECK_INTERVAL) :=
  waitForChecks_timeout (fun _ => ⟨.fail, .fail, .fail⟩) 2 1 (by decide) (fun _ => rfl)

/-- C2 counterexample: when the merge command fails and the state re-fetch
itself fails, the merge step still ends in failure (exit code 1 in `main`)
even though the re-check never confirmed a non-merged state — refuting the
claim that the merge-failed outcome is reached only when the re-check
confirms the PR is not merged. -/
theorem mergeStep_exit_without_confirmation :
    mergeStep ⟨false, .fail⟩ = false ∧
    ¬ ∃ sd : MergeStateData,
        (MergeObs.mk false .fail).recheck = .ok sd ∧ sd.state ≠ "MERGED" := by
  refine ⟨rfl, ?_⟩
  rintro ⟨sd, h, -⟩
  exact FetchResult.noConfusion h

/-- C2 amended: when the squash-merge command reports failure the program
re-fetches the PR state and treats a MERGED response as success; the
merge-failed terminal outcome is taken exactly when the command failed and
the re-check did not observe state MERGED — whether it confirmed a
non-merged state or the re-fetch/parse itself failed. -/
theorem mergeStep_failure_characterization (o : MergeObs) :
    (o.mergeCmdOk = false → o.recheck = .ok ⟨"MERGED"⟩ → mergeStep o = true) ∧
    (mergeStep o = false ↔
      o.mergeCmdOk = false ∧ ∀ sd, o.recheck = .ok sd → sd.state ≠ "MERGED") := by
  obtain ⟨cmd, rc⟩ := o
  constructor
  · rintro rfl rfl
    rfl
  · cases cmd
    · cases rc with
      | fail => simp [mergeStep]
      | parseError => simp [mergeStep]
      | ok sd => simp [mergeStep]
    · simp [mergeStep]

/-- C2 witness: a failed merge command followed by a re-check observing
MERGED is treated as success. -/
theorem mergeStep_failure_characterization_witness :
    mergeStep ⟨false, .ok ⟨"MERGED"⟩⟩ = true :=
  (mergeStep_failure_characterization ⟨false, .ok ⟨"MERGED"⟩⟩).1 rfl rfl

theorem createPRPath_createCalled (o : ResolveObs) :
    (createPRPath o).createCalled = true := by
  unfold createPRPath
  repeat' split
  all_goals rfl

/-- C5 counterexample: the claim ranges over every non-empty listing, but a
listing whose first PR is numbered 0 is JS-falsy at the `if (prNumber)`
guard (line 439): the script does not return the listed number and instead
proceeds to issue the create request (here failing, with every fallback
empty, into the fatal exit), refuting the no-create-request idempotence for
this non-empty listing. -/
theorem getOrCreatePR_zero_listing_creates :
    getOrCreatePR ⟨.ok [⟨0, "u", "t"⟩], none, .fail, .fail, .fail⟩ = ⟨.exitOne, true⟩ ∧
    getOrCreatePR ⟨.ok [⟨0, "u", "t"⟩], none, .fail, .fail, .fail⟩
      ≠ ⟨.ret (.ofNat 0), false⟩ :=
  ⟨by decide, by decide⟩

/-- C5 amended: when the existence query lists at least one PR whose first
entry has a non-zero (JS-truthy) number, `getOrCreatePR` returns the first
listed PR's number and issues no create request; a second call under the
same listing returns the same number and again creates nothing. -/
theorem getOrCreatePR_idempotent (o o2 : ResolveObs) (pr : PRInfo) (rest : List PRInfo)
    (h1 : o.list1 = .ok (pr :: rest)) (h2 : o2.list1 = .ok (pr :: rest))
    (hnz : pr.number ≠ 0) :
    getOrCreatePR o = ⟨.ret (.ofNat pr.number), false⟩ ∧
    getOrCreatePR o2 = getOrCreatePR o ∧
    (getOrCreatePR o2).createCalled = false := by
  have e1 : getOrCreatePR o = ⟨.ret (.ofNat pr.number), false⟩ := by
    simp [getOrCreatePR, findExistingPR, h1, hnz]
  have e2 : getOrCreatePR o2 = ⟨.ret (.ofNat pr.number), false⟩ := by
    simp [getOrCreatePR, findExistingPR, h2, hnz]
  exact ⟨e1, by rw [e1, e2], by rw [e2]⟩

/-- C5 witness: two calls under the same one-element listing agree on PR
number 5 and the second call creates no PR. -/
theorem getOrCreatePR_idempotent_witness :
    getOrCreatePR ⟨.ok [⟨5, "u", "Release v1"⟩], none, .fail, .fail, .fail⟩
        = ⟨.ret (.ofNat 5), false⟩ ∧
    getOrCreatePR ⟨.ok [⟨5, "u", "Release v1"⟩], some "#9", .ok [], .fail, .fail⟩
        = getOrCreatePR ⟨.ok [⟨5, "u", "Release v1"⟩], none, .fail, .fail, .fail⟩ ∧
    (getOrCreatePR ⟨.ok [⟨5, "u", "Release v1"⟩], some "#9", .ok [], .fail, .fail⟩).createCalled
        = false :=
  getOrCreatePR_idempotent
    ⟨.ok [⟨5, "u", "Release v1"⟩], none, .fail, .fail, .fail⟩
    ⟨.ok [⟨5, "u", "Release v1"⟩], some "#9", .ok [], .fail, .fail⟩
    ⟨5, "u", "Release v1"⟩ [] rfl rfl (by decide)

/-- C6: when the initial lookup yields no JS-truthy PR number and the
create request fails, `getOrCreatePR` re-queries for an existing PR and
returns its number whenever the re-query yields a truthy one, exiting only
when it does not; conversely the fatal exit is taken only when the initial
lookup yielded no truthy PR number, a create request was issued, and both
the create call and the existence-query fallback failed to yield a
(truthy) PR number. -/
theorem getOrCreatePR_create_fallback (o : ResolveObs) :
    (truthyNum (findExistingPR o.list1) = false → truthyStr o.createResult = false →
      ((∀ n, findExistingPR o.list2 = some n → n ≠ 0 →
          getOrCreatePR o = ⟨.ret (.ofNat n), true⟩) ∧
        (truthyNum (findExistingPR o.list2) = false →
          getOrCreatePR o = ⟨.exitOne, true⟩))) ∧
    ((getOrCreatePR o).result = .exitOne →
      truthyNum (findExistingPR o.list1) = false ∧
      (getOrCreatePR o).createCalled = true ∧
      ((truthyStr o.createResult = false ∧ truthyNum (findExistingPR o.list2) = false) ∨
        (∃ r, o.createResult = some r ∧ r ≠ "" ∧
          extractPRNumber r o.extractList = none ∧
          truthyNum (findExistingPR o.list3) = false))) := by
  constructor
  · intro h1 hcr
    have hpath : getOrCreatePR o = createPRPath o := by
      cases hf1 : findExistingPR o.list1 with
      | none => simp [getOrCreatePR, hf1]
      | some n =>
        rw [hf1] at h1
        have hz : n = 0 := by simpa [truthyNum] using h1
        subst hz
        simp [getOrCreatePR, hf1]
    constructor
    · intro n hn hnz
      rw [hpath]
      simp [createPRPath, hcr, hn, hnz]
    · intro h2
      rw [hpath]
      cases hl2 : findExistingPR o.list2 with
      | none => simp [createPRPath, hcr, hl2]
      | some n =>
        rw [hl2] at h2
        have hz : n = 0 := by simpa [truthyNum] using h2
        subst hz
        simp [createPRPath, hcr, hl2]
  · intro hexit
    have h1 : truthyNum (findExistingPR o.list1) = false := by
      cases hf1 : findExistingPR o.list1 with
      | none => rfl
      | some n =>
        by_cases hz : n = 0
        · subst hz; rfl
        · exfalso
          simp [getOrCreatePR, hf1, hz] at hexit
    have hpath : getOrCreatePR o = createPRPath o := by
      cases hf1 : findExistingPR o.list1 with
      | none => simp [getOrCreatePR, hf1]
      | some n =>
        rw [hf1] at h1
        have hz : n = 0 := by simpa [truthyNum] using h1
        subst hz
        simp [getOrCreatePR, hf1]
    rw [hpath] at hexit
    refine ⟨h1, by rw [hpath]; exact createPRPath_createCalled o, ?_⟩
    cases hcro : o.createResult with
    | none =>
      cases hl2 : findExistingPR o.list2 with
      | none => exact Or.inl ⟨by decide, rfl⟩
      | some n =>
        by_cases hz : n = 0
        · subst hz; exact Or.inl ⟨by decide, by decide⟩
        · exfalso
          simp [createPRPath, hcro, truthyStr, hl2, hz] at hexit
    | some r =>
      by_cases hrne : r = ""
      · subst hrne
        cases hl2 : findExistingPR o.list2 with
        | none => exact Or.inl ⟨by decide, rfl⟩
        | some n =>
          by_cases hz : n = 0
          · subst hz; exact Or.inl ⟨by decide, by decide⟩
          · exfalso
            simp [createPRPath, hcro, truthyStr, hl2, hz] at hexit
      · cases hx : extractPRNumber r o.extractList with
        | some id =>
          exfalso
          simp [createPRPath, hcro, truthyStr, hrne, hx] at hexit
        | none =>
          cases hl3 : findExistingPR o.list3 with
          | none => exact Or.inr ⟨r, rfl, hrne, hx, rfl⟩
          | some n =>
            by_cases hz : n = 0
            · subst hz; exact Or.inr ⟨r, rfl, hrne, hx, by decide⟩
            · exfalso
              simp [createPRPath, hcro, truthyStr, hrne, hx, hl3, hz] at hexit

/-- C6 witness: with an empty initial listing, a failed create command, and
a re-query that lists PR 7, the resolver returns 7 after having issued the
create request. -/
theorem getOrCreatePR_create_fallback_witness :
    getOrCreatePR ⟨.ok [], none, .ok [⟨7, "u", "t"⟩], .fail, .fail⟩
      = ⟨.ret (.ofNat 7), true⟩ :=
  ((getOrCreatePR_create_fallback
      ⟨.ok [], none, .ok [⟨7, "u", "t"⟩], .fail, .fail⟩).1 rfl rfl).1 7 rfl
    (by decide)

/-- Release-notes extraction as the claim words it (refinement-side
definition, written from the spec, to be compared with the source-side
`collectNotes`): the accumulated non-blank lines of the section(s) headed
by a line containing `[Unreleased]` or `[<version>]`, stopping before the
first `## [`-prefixed heading line that does not contain the target
version, heading lines themselves excluded. -/
def specSectionLines (version : String) (lines : List String) : List String :=
  (((lines.dropWhile (fun l => !(markLine version l))).drop 1).takeWhile
      (fun l => !(stopLine version l))).filter
    (fun l => !(markLine version l) && jsTrim l != "")

theorem collectNotes_true_eq (version : String) :
    ∀ lines : List String,
      (∀ l ∈ lines, markLine version l = true → stopLine version l = false) →
      collectNotes version lines true
        = (lines.takeWhile (fun l => !(stopLine version l))).filter
            (fun l => !(markLine version l) && jsTrim l != "") := by
  intro lines
  induction lines with
  | nil => intro _; rfl
  | cons l ls ih =>
    intro h
    have hls : ∀ a ∈ ls, markLine version a = true → stopLine version a = false :=
      fun a ha => h a (List.mem_cons_of_mem l ha)
    by_cases hm : markLine version l = true
    · have hs : stopLine version l = false := h l (List.mem_cons_self l ls) hm
      simp only [collectNotes, hm, if_true, List.takeWhile_cons, hs]
      simp [List.filter_cons, hm, ih hls]
    · have hm' : markLine version l = false := by simpa using hm
      by_cases hs : stopLine version l = true
      · simp [collectNotes, hm', hs]
      · have hs' : stopLine version l = false := by simpa using hs
        by_cases ht : jsTrim l = ""
        · simp [collectNotes, hm', hs', ht, ih hls]
        · simp [collectNotes, hm', hs', ht, ih hls]

theorem collectNotes_false_eq (version : String) :
    ∀ lines : List String,
      (∀ l ∈ (lines.dropWhile (fun a => !(markLine version a))).drop 1,
        markLine version l = true → stopLine version l = false) →
      collectNotes version lines false = specSectionLines version lines := by
  intro lines
  induction lines with
  | nil => intro _; rfl
  | cons l ls ih =>
    intro h
    by_cases hm : markLine version l = true
    · have hls : ∀ a ∈ ls, markLine version a = true → stopLine version a = false := by
        intro a ha
        refine h a ?_
        simp [List.dropWhile_cons, hm, ha]
      simp only [collectNotes, hm, if_true, specSectionLines, List.dropWhile_cons]
      simp [hm, collectNotes_true_eq version ls hls]
    · have hm' : markLine version l = false := by simpa using hm
      have hls : ∀ a ∈ (ls.dropWhile (fun a => !(markLine version a))).drop 1,
          markLine version a = true → stopLine version a = false := by
        intro a ha
        refine h a ?_
        simpa [List.dropWhile_cons, hm'] using ha
      simp only [collectNotes, hm', specSectionLines, List.dropWhile_cons]
      simp [hm', ih hls, specSectionLines]

/-- A changelog of the shape named by the claim: an Unreleased section with
two entries, the 1.2.0 section, then an older version section. -/
def chgExample : String :=
  "## [Unreleased]\n- A\n- B\n## [1.2.0]\n- C\n## [1.1.0]\n- D"

/-- C7 counterexample: on the claim's changelog shape the returned string is
not exactly the accumulated section lines — it additionally carries the
`Release v<version>` header and a blank line in front of them. -/
theorem generateReleaseNotes_not_bare_sections :
    generateReleaseNotes "1.2.0" (some chgExample) = "Release v1.2.0\n\n- A\n- B\n- C" ∧
    specSectionLines "1.2.0" (jsSplitLines chgExample) = ["- A", "- B", "- C"] ∧
    generateReleaseNotes "1.2.0" (some chgExample)
      ≠ jsJoin "\n" (specSectionLines "1.2.0" (jsSplitLines chgExample)) :=
  ⟨by decide, by decide, by decide⟩

/-- C7 amended: on any changelog in which no line after the first section
heading both matches a heading (`[Unreleased]` or `[<version>]`) and
triggers the section break (`## [` prefix without the version), with a
non-empty extracted section,
`generateReleaseNotes` returns the header `Release v<version>` and a blank
line followed by exactly the accumulated non-blank lines of the section(s)
headed by `[Unreleased]` or `[<version>]`, stopping before the first
`## [`-prefixed heading line that does not contain the target version. -/
theorem generateReleaseNotes_section (version changelogText : String)
    (hok : ∀ l ∈ ((jsSplitLines changelogText).dropWhile
        (fun a => !(markLine version a))).drop 1,
      markLine version l = true → stopLine version l = false)
    (hne : specSectionLines version (jsSplitLines changelogText) ≠ []) :
    generateReleaseNotes version (some changelogText)
      = "Release v" ++ version ++ "\n\n"
        ++ jsJoin "\n" (specSectionLines version (jsSplitLines changelogText)) := by
  have he := collectNotes_false_eq version (jsSplitLines changelogText) hok
  have hie : (specSectionLines version (jsSplitLines changelogText)).isEmpty = false := by
    cases hsp : specSectionLines version (jsSplitLines changelogText) with
    | nil => exact absurd hsp hne
    | cons x xs => rfl
  simp [generateReleaseNotes, he, hie]

/-- C7 witness: the amended statement evaluated on the claim's changelog
shape. -/
theorem generateReleaseNotes_section_witness :
    generateReleaseNotes "1.2.0" (some chgExample)
      = "Release v" ++ "1.2.0" ++ "\n\n"
        ++ jsJoin "\n" (specSectionLines "1.2.0" (jsSplitLines chgExample)) :=
  generateReleaseNotes_section "1.2.0" chgExample (by decide) (by decide)

/-- C8: when the tag-list query for `v<version>` returns a non-empty result,
`createRelease` issues no release-create request and returns normally; under
the hypotheses that bring `main` to the release step, the whole run then
finishes with exit code 0 and zero release-create requests. -/
theorem createRelease_tag_idempotent (o : MainObs) (t b : String)
    (hgh : truthyStr (execCommandSafely o.ghVersionRaw) = true)
    (hauth : truthyStr o.authStatus = true)
    (hst : o.gitStatusPorcelain = some "")
    (hbr : o.currentBranch = some b) (hbm : b ≠ "main")
    (hpush : o.pushOk = true)
    (hres : ∃ id, (getOrCreatePR o.resolveObs).result = .ret id)
    (hchecks : (waitForChecks o.cycles).1 = true)
    (hgate : conflictGate o.preMergeView o.conflictObs o.postConflictView = true)
    (hmerge : mergeStep o.mergeObs = true)
    (hco : o.relObs.checkoutOk = true) (hpl : o.relObs.pullOk = true)
    (htag : o.relObs.tagList = some t) (hne : t ≠ "") :
    createRelease o.version o.relObs = ⟨true, 0, false⟩ ∧
    mainRun o = ⟨0, true, true, (getOrCreatePR o.resolveObs).createCalled, 0⟩ := by
  have hcr : createRelease o.version o.relObs = ⟨true, 0, false⟩ := by
    simp [createRelease, hco, hpl, htag, truthyStr, hne]
  refine ⟨hcr, ?_⟩
  obtain ⟨id, hid⟩ := hres
  have hb : (b == BASE_BRANCH) = false := by
    simp [BASE_BRANCH, hbm]
  cases hg : (getOrCreatePR o.resolveObs).result with
  | exitOne => rw [hid] at hg; exact absurd hg (by simp)
  | ret pid =>
    have hz : ("" : String).length = 0 := rfl
    simp [mainRun, hgh, hauth, hst, hbr, hb, hpush, hg, hchecks, hgate, hmerge, hcr, hz]

/-- C8 witness: a fully concrete run whose tag `v1.0.0` already exists ends
with exit code 0 and no release-create request. -/
theorem createRelease_tag_idempotent_witness :
    createRelease "1.0.0"
        ⟨true, true, none, some "v1.0.0", true, true, true, true⟩
      = ⟨true, 0, false⟩ ∧
    mainRun
        ⟨some "gh version 2.40.0", some "Logged in", some "", some "release/1.0.0",
          "1.0.0",
          true,
          ⟨.ok [⟨5, "https://example.invalid/pull/5", "Release v1.0.0"⟩],
            none, .fail, .fail, .fail⟩,
          fun _ => ⟨.ok ⟨"OPEN", "MERGEABLE"⟩, .ok [⟨"pass", "completed", "test"⟩], .fail⟩,
          .ok ⟨"MERGEABLE", "CLEAN"⟩,
          ⟨true, true, true, true⟩,
          .fail,
          ⟨true, .fail⟩,
          ⟨true, true, none, some "v1.0.0", true, true, true, true⟩⟩
      = ⟨0, true, true,
          (getOrCreatePR ⟨.ok [⟨5, "https://example.invalid/pull/5", "Release v1.0.0"⟩],
            none, .fail, .fail, .fail⟩).createCalled, 0⟩ :=
  createRelease_tag_idempotent
    ⟨some "gh version 2.40.0", some "Logged in", some "", some "release/1.0.0",
      "1.0.0",
      true,
      ⟨.ok [⟨5, "https://example.invalid/pull/5", "Release v1.0.0"⟩],
        none, .fail, .fail, .fail⟩,
      fun _ => ⟨.ok ⟨"OPEN", "MERGEABLE"⟩, .ok [⟨"pass", "completed", "test"⟩], .fail⟩,
      .ok ⟨"MERGEABLE", "CLEAN"⟩,
      ⟨true, true, true, true⟩,
      .fail,
      ⟨true, .fail⟩,
      ⟨true, true, none, some "v1.0.0", true, true, true, true⟩⟩
    "v1.0.0" "release/1.0.0"
    rfl rfl rfl rfl (by decide) rfl ⟨.ofNat 5, by decide⟩
    (by
      exact congrArg Prod.fst (waitFrom_ret (by decide) (by decide)))
    (by decide) (by decide) rfl rfl rfl (by decide)

/-- C9 counterexample: a run in which the temp notes file is written, the
file-based publish fails, and the escaped-string fallback succeeds ends the
release step successfully after two release-create requests with no attempt
to remove the temp file — refuting the claim that removal is attempted on
every exit path of the release-publish step. -/
theorem createRelease_fallback_skips_cleanup :
    createRelease "1.0.0" ⟨true, true, none, none, true, false, true, true⟩
        = ⟨true, 2, false⟩ ∧
    (createRelease "1.0.0" ⟨true, true, none, none, true, false, true, true⟩).unlinkAttempted
        = false :=
  ⟨rfl, rfl⟩

/-- C9 amended: removal of the temporary release-notes file is attempted
exactly on the runs that reach the creation path with a successful temp-file
write and a successful file-based publish (including when the unlink itself
then fails and the fallback runs); the fallback paths entered after a
temp-write or file-based-publish failure, and the fallback-failure exit,
make no cleanup attempt. -/
theorem createRelease_cleanup_exactly_on_file_success (version : String) (o : RelObs) :
    (createRelease version o).unlinkAttempted
      = (o.checkoutOk && o.pullOk && !truthyStr o.tagList
          && o.tmpWriteOk && o.fileCreateOk) := by
  obtain ⟨co, pl, cl, tl, tw, fc, ul, fb⟩ := o
  cases co <;> cases pl <;> cases tw <;> cases fc <;> cases ul <;> cases fb <;>
    cases htl : truthyStr tl <;>
      simp [createRelease, createReleasePath, relFallback, htl]

/-- C10: with the tool, auth and clean-tree prerequisites satisfied, a run
started on the base branch `main` exits immediately with code 1, without
attempting the branch push, without any PR listing and without any PR or
release creation. -/
theorem mainRun_base_branch_guard (o : MainObs)
    (hgh : truthyStr (execCommandSafely o.ghVersionRaw) = true)
    (hauth : truthyStr o.authStatus = true)
    (hst : o.gitStatusPorcelain = some "")
    (hbr : o.currentBranch = some "main") :
    mainRun o = ⟨1, false, false, false, 0⟩ := by
  have hz : ("" : String).length = 0 := rfl
  simp [mainRun, hgh, hauth, hst, hbr, hz, BASE_BRANCH]

/-- C10 witness: a concrete run on branch `main` with all other
prerequisites satisfied exits with code 1 and no side effects. -/
theorem mainRun_base_branch_guard_witness :
    mainRun
        ⟨some "gh version 2.40.0", some "Logged in", some "", some "main",
          "1.0.0",
          true,
          ⟨.ok [⟨5, "u", "t"⟩], none, .fail, .fail, .fail⟩,
          fun _ => ⟨.ok ⟨"OPEN", "MERGEABLE"⟩, .ok [⟨"pass", "completed", "test"⟩], .fail⟩,
          .ok ⟨"MERGEABLE", "CLEAN"⟩,
          ⟨true, true, true, true⟩,
          .fail,
          ⟨true, .fail⟩,
          ⟨true, true, none, none, true, true, true, true⟩⟩
      = ⟨1, false, false, false, 0⟩ :=
  mainRun_base_branch_guard
    ⟨some "gh version 2.40.0", some "Logged in", some "", some "main",
      "1.0.0",
      true,
      ⟨.ok [⟨5, "u", "t"⟩], none, .fail, .fail, .fail⟩,
      fun _ => ⟨.ok ⟨"OPEN", "MERGEABLE"⟩, .ok [⟨"pass", "completed", "test"⟩], .fail⟩,
      .ok ⟨"MERGEABLE", "CLEAN"⟩,
      ⟨true, true, true, true⟩,
      .fail,
      ⟨true, .fail⟩,
      ⟨true, true, none, none, true, true, true, true⟩⟩
    rfl rfl rfl rfl
